import Mathlib

/-!
Voice symptom-check session (`src/frontend/src/pages/SymptomChecker.jsx`).

A shallow embedding of the `SymptomChecker` React component: its state hooks
become the fields of `Session`, its event handlers become functions on
`Session`, and every asynchronous handler is split at its `await` into the
part that runs at once and the part that runs when the awaited operation
settles.  The effects the handlers have on the outside world (requests sent
to the analysis endpoint, audio contexts created and closed) are recorded in
the session as logs and counters.
-/

namespace SymptomChecker

/-! JavaScript string helpers -/

/-- The code points `String.prototype.trim` strips: ECMAScript `WhiteSpace`
and `LineTerminator`. -/
def isJsWhiteSpace (c : Char) : Bool :=
  let n := c.toNat
  n == 0x09 || n == 0x0A || n == 0x0B || n == 0x0C || n == 0x0D || n == 0x20 ||
  n == 0xA0 || n == 0x1680 || (0x2000 ≤ n && n ≤ 0x200A) || n == 0x2028 ||
  n == 0x2029 || n == 0x202F || n == 0x205F || n == 0x3000 || n == 0xFEFF

/-- The method `s.trim()`: white space removed from both ends. -/
def jsTrim (s : String) : String :=
  String.mk ((s.data.dropWhile isJsWhiteSpace).reverse.dropWhile isJsWhiteSpace).reverse

/-- The test `!s.trim()`: the trimmed text is the empty string (the only falsy
string). -/
def isBlank (s : String) : Bool :=
  (jsTrim s).data.isEmpty

/-- The expression `a || d` for a field that is a string when present: the field is falsy when
it is absent, `null` or the empty string. -/
def jsOr (a : Option String) (d : String) : String :=
  match a with
  | some v => if v.data.isEmpty then d else v
  | none => d

/-- The method `s.split(c)`: the pieces of `s` between the occurrences of `c`. -/
def splitChars (c : Char) : List Char → List (List Char)
  | [] => [[]]
  | x :: xs =>
    if x = c then [] :: splitChars c xs
    else
      match splitChars c xs with
      | [] => [[x]]
      | p :: ps => (x :: p) :: ps

/-- The expression `selectedLanguage.split('-')[0]` of line 126. -/
def languageCode (selectedLanguage : String) : String :=
  String.mk ((splitChars '-' selectedLanguage.data).headD [])

/-! Data model -/

inductive Role where
  | user
  | assistant
  deriving DecidableEq, Repr

/-- An entry of `messages`: `{ role, content }`. -/
structure ChatMessage where
  role : Role
  content : String
  deriving DecidableEq, Repr

/-- The JSON body of the `fetch` call (lines 123-127). -/
structure AnalysisRequest where
  symptom_description : String
  language_code : String
  deriving DecidableEq, Repr

/-- The fields the component reads from a parsed response body that is not
`null`, typed as the endpoint documents them; `none` stands for a field that is
absent or `null`. -/
structure ResponseData where
  result : Option String
  speech_data : Option String
  message : Option String
  isValidbase64 : Option Bool
  error : Option String
  deriving DecidableEq, Repr

/-- The value of `data` after `await response.json()`. -/
inductive ParsedBody where
  | null
  | fields (d : ResponseData)
  deriving DecidableEq, Repr

/-- The ways the exchange of lines 120-130 settles. -/
inductive Exchange where
  /-- `fetch` rejects: no response arrived. -/
  | transportFailure
  /-- A response with this status arrived and `response.json()` rejects. -/
  | unparseableBody (status : Nat)
  /-- A response with this status arrived and its body parsed to `data`. -/
  | response (status : Nat) (data : ParsedBody)
  deriving DecidableEq, Repr

/-- The flag `response.ok`: the status is in the range 200-299. -/
def responseOk (status : Nat) : Bool :=
  200 ≤ status && status ≤ 299

/-- Counters of the audio resources used by `speakText`. -/
structure AudioState where
  /-- Audio contexts constructed (line 88). -/
  created : Nat
  /-- Audio contexts closed (line 95). -/
  closed : Nat
  /-- Buffer sources started whose `onended` has not fired yet. -/
  playing : Nat
  deriving DecidableEq, Repr

/-- The component state (lines 6-14) together with its environment. -/
structure Session where
  inputText : String
  messages : List ChatMessage
  isListening : Bool
  isLoading : Bool
  selectedLanguage : String
  /-- Whether `window.SpeechRecognition` exists, so that `recognitionRef.current`
  holds a recognizer. -/
  speechSupported : Bool
  /-- Whether the recognizer is started: `start()` has been called and no error
  or end event has fired on it since. -/
  recognizing : Bool
  /-- The bodies of the requests sent to `API_ENDPOINT`, oldest first. -/
  requests : List AnalysisRequest
  /-- The number of those requests whose exchange has not settled yet. -/
  inFlight : Nat
  /-- The arguments of the calls of `speakText`, oldest first. -/
  playbackCalls : List String
  audio : AudioState
  deriving DecidableEq, Repr

/-- The state after the first render. -/
def initialSession (speechSupported : Bool) : Session :=
  { inputText := "", messages := [], isListening := false, isLoading := false,
    selectedLanguage := "en-US", speechSupported := speechSupported,
    recognizing := false, requests := [], inFlight := 0, playbackCalls := [],
    audio := { created := 0, closed := 0, playing := 0 } }

/-- The options of the language selector (lines 184-192). -/
def languageOptions : List (String × String) :=
  [("en-US", "English (US)"), ("en-GB", "English (UK)"), ("kn-IN", "Kannada (India)"),
   ("hi-IN", "Hindi (India)"), ("te-IN", "Telugu (India)"), ("ta-IN", "Tamil (India)")]

/-! Audio playback (`speakText`, lines 69-102) -/

/-- The base64 alphabet: the 6-bit value of a character. -/
def base64Value (c : Char) : Option Nat :=
  let n := c.toNat
  if 65 ≤ n ∧ n ≤ 90 then some (n - 65)
  else if 97 ≤ n ∧ n ≤ 122 then some (n - 97 + 26)
  else if 48 ≤ n ∧ n ≤ 57 then some (n - 48 + 52)
  else if n = 43 then some 62
  else if n = 47 then some 63
  else none

/-- ASCII white space, which `atob` skips: TAB, LF, FF, CR and SPACE. -/
def isAsciiWhiteSpace (c : Char) : Bool :=
  let n := c.toNat
  n == 0x09 || n == 0x0A || n == 0x0C || n == 0x0D || n == 0x20

/-- Removal of one or two trailing `=` from a text whose length is a multiple
of four. -/
def stripPadding (cs : List Char) : List Char :=
  if cs.length % 4 = 0 then
    match cs.reverse with
    | a :: b :: r =>
      if a.toNat = 61 then (if b.toNat = 61 then r.reverse else (b :: r).reverse) else cs
    | _ => cs
  else cs

/-- The bytes encoded by a run of 6-bit values. -/
def decodeSextets : List Nat → List Nat
  | a :: b :: c :: d :: rest =>
    (a * 4 + b / 16) :: ((b % 16) * 16 + c / 4) :: ((c % 4) * 64 + d) :: decodeSextets rest
  | [a, b, c] => [a * 4 + b / 16, (b % 16) * 16 + c / 4]
  | [a, b] => [a * 4 + b / 16]
  | _ => []

/-- The platform function `atob` (forgiving base64 decoding): the char codes of
the binary string, or `none` where it throws. -/
def atob (s : String) : Option (List Nat) :=
  let cs := stripPadding (s.data.filter (fun c => !isAsciiWhiteSpace c))
  if cs.length % 4 = 1 then none
  else (cs.mapM base64Value).map decodeSextets

/-- The `base64String` of lines 77-79: the piece after the first comma when the
argument has a comma, the argument itself otherwise. -/
def base64String (base64Audio : String) : String :=
  if base64Audio.data.contains ',' then
    String.mk ((splitChars ',' base64Audio.data).getD 1 [])
  else base64Audio

/-- The text `speakText` hands to `atob` (line 81); `none` when it returns at
line 72 before decoding anything. -/
def decoderInput (base64Audio : Option String) : Option String :=
  match base64Audio with
  | none => none
  | some b => if b.data.isEmpty then none else some (base64String b)

/-- The function `speakText`, run up to `source.start(0)` or to its `catch`.
`decodes` tells whether `decodeAudioData` resolves for the decoded bytes.
The guard of line 70 returns for a falsy argument; `atob` throwing is caught
before any context exists; the context is constructed at line 88; when
`decodeAudioData` rejects, the `catch` of lines 99-101 only logs. -/
def speakText (a : AudioState) (base64Audio : Option String) (decodes : Bool) : AudioState :=
  match decoderInput base64Audio with
  | none => a
  | some b64 =>
    match atob b64 with
    | none => a
    | some _ =>
      let a1 := { a with created := a.created + 1 }
      if decodes then { a1 with playing := a1.playing + 1 } else a1

/-- The `source.onended` handler of lines 94-96, fired when a started source
finishes playing: it closes the context of that call. -/
def onended (a : AudioState) : AudioState :=
  if 0 < a.playing then { a with closed := a.closed + 1, playing := a.playing - 1 } else a

/-! Speech capture (lines 33-67) -/

/-- The handler `recognitionRef.current.onresult` (lines 33-37). -/
def onresult (s : Session) (transcript : String) : Session :=
  { s with inputText := transcript, isListening := false }

/-- The handler `recognitionRef.current.onerror` (lines 38-41). -/
def onerror (s : Session) : Session :=
  { s with isListening := false }

/-- The handler `recognitionRef.current.onend` (lines 42-44). -/
def onend (s : Session) : Session :=
  { s with isListening := false }

/-- The function `startListening` (lines 51-60).  Without the capability it
alerts and returns; `start()` on a recognizer that is already started throws,
so that line 58 is not reached. -/
def startListening (s : Session) : Session :=
  if !s.speechSupported then s
  else if s.recognizing then s
  else { s with isListening := true, recognizing := true }

/-- The function `stopListening` (lines 62-67).  `stop()` asks the recognizer to
finish: it stays started until it fires an error or end event. -/
def stopListening (s : Session) : Session :=
  if s.speechSupported then { s with isListening := false } else s

/-! The analysis exchange (`analyzeSymptoms`, lines 104-176) -/

def assistantSays (content : String) : ChatMessage :=
  { role := Role.assistant, content := content }

def userSays (content : String) : ChatMessage :=
  { role := Role.user, content := content }

/-- The function `analyzeSymptoms` up to its first `await` (lines 104-128): the
blank-input branch, or the user message, the loading flag and the `fetch`. -/
def analyzeSymptoms (s : Session) (userSymptomDescription : String) : Session :=
  if isBlank userSymptomDescription then
    { s with messages := s.messages ++ [assistantSays "Please describe your symptoms."] }
  else
    { s with
      messages := s.messages ++ [userSays userSymptomDescription],
      isLoading := true,
      requests := s.requests ++
        [{ symptom_description := userSymptomDescription,
           language_code := languageCode s.selectedLanguage }],
      inFlight := s.inFlight + 1 }

/-- The `catch` block of lines 163-171. -/
def catchBlock (s : Session) : Session :=
  { s with messages := s.messages ++
      [assistantSays "Something went wrong. Please try again later."] }

/-- The `finally` block of lines 172-175. -/
def finallyBlock (s : Session) : Session :=
  { s with isLoading := false, inputText := "" }

/-- The success branch (lines 133-154). -/
def onOk (s : Session) (data : ResponseData) (decodes : Bool) : Session :=
  let assistantText := jsOr data.result "No response text provided."
  let assistantSpeechData : Option String :=
    match data.speech_data with
    | some v => if v.data.isEmpty then none else some v
    | none => none
  let isValidBase64 : Bool := data.isValidbase64 == some true
  let s1 := { s with messages := s.messages ++ [assistantSays assistantText] }
  match assistantSpeechData with
  | some v =>
    if isValidBase64 then
      { s1 with playbackCalls := s1.playbackCalls ++ [v],
                audio := speakText s1.audio (some v) decodes }
    else s1
  | none => s1

/-- The error branch (lines 155-162). -/
def onNotOk (s : Session) (data : ResponseData) : Session :=
  let errMsg := jsOr data.error "An unknown error occurred on the server."
  { s with messages := s.messages ++ [assistantSays ("Error: " ++ errMsg)] }

/-- The rest of `analyzeSymptoms` (lines 130-175), run when the exchange
settles.  A rejected `fetch` or `response.json()` goes to the `catch`; so does
a body that parsed to `null`, whose property reads throw. -/
def analyzeSymptomsSettled (s : Session) (o : Exchange) (decodes : Bool) : Session :=
  let s0 := { s with inFlight := s.inFlight - 1 }
  match o with
  | Exchange.transportFailure => finallyBlock (catchBlock s0)
  | Exchange.unparseableBody _ => finallyBlock (catchBlock s0)
  | Exchange.response _ ParsedBody.null => finallyBlock (catchBlock s0)
  | Exchange.response status (ParsedBody.fields data) =>
    if responseOk status then finallyBlock (onOk s0 data decodes)
    else finallyBlock (onNotOk s0 data)

/-- The function `handleSubmit` (lines 178-181). -/
def handleSubmit (s : Session) : Session :=
  analyzeSymptoms s s.inputText

/-- The setter `setSelectedLanguage`, as called at line 220. -/
def setSelectedLanguage (s : Session) (code : String) : Session :=
  { s with selectedLanguage := code }

/-- The setter `setInputText`, as called at line 276. -/
def setInputText (s : Session) (text : String) : Session :=
  { s with inputText := text }

/-! The form controls (lines 217-303) -/

/-- The `disabled` attribute of the language selector (line 221). -/
def languageSelectDisabled (s : Session) : Bool := s.isLoading || s.isListening

/-- The `disabled` attribute of the textarea (line 279). -/
def textareaDisabled (s : Session) : Bool := s.isLoading

/-- The `disabled` attribute of the microphone button (line 291). -/
def micButtonDisabled (s : Session) : Bool := s.isLoading

/-- The `disabled` attribute of the submit button (line 299). -/
def submitDisabled (s : Session) : Bool := s.isLoading || isBlank s.inputText

/-- What can happen to a session: the user acting on a control, or an
operation started earlier reporting back. -/
inductive Command where
  | typeText (text : String)
  | clickMic
  | clickSubmit
  | selectLanguage (code : String)
  | recognitionResult (transcript : String)
  | recognitionError
  | recognitionEnd
  | analysisSettles (o : Exchange) (decodes : Bool)
  | playbackEnds
  deriving DecidableEq, Repr

/-- One transition of the session.  A disabled control delivers no event; the
recognizer reports only while it is started; an exchange settles only when one
is in flight. -/
def step (s : Session) : Command → Session
  | Command.typeText text => if textareaDisabled s then s else setInputText s text
  | Command.clickMic =>
    if micButtonDisabled s then s
    else if s.isListening then stopListening s else startListening s
  | Command.clickSubmit => if submitDisabled s then s else handleSubmit s
  | Command.selectLanguage code =>
    if languageSelectDisabled s then s else setSelectedLanguage s code
  | Command.recognitionResult transcript => if s.recognizing then onresult s transcript else s
  | Command.recognitionError =>
    if s.recognizing then { onerror s with recognizing := false } else s
  | Command.recognitionEnd => if s.recognizing then { onend s with recognizing := false } else s
  | Command.analysisSettles o decodes =>
    if 0 < s.inFlight then analyzeSymptomsSettled s o decodes else s
  | Command.playbackEnds => { s with audio := onended s.audio }

/-- The session after a sequence of commands. -/
def run (s : Session) (cmds : List Command) : Session :=
  cmds.foldl step s

/-- The session is idle: no capture and no request is active. -/
def isIdle (s : Session) : Bool := !s.isLoading && !s.isListening

/-- One complete exchange: a submit and the settling of its request. -/
def exchange (s : Session) (text : String) (o : Exchange) (decodes : Bool) : Session :=
  analyzeSymptomsSettled (analyzeSymptoms s text) o decodes

/-- A round of a conversation: the text submitted, how its exchange settles and
whether the audio of the reply decodes. -/
structure Round where
  text : String
  outcome : Exchange
  decodes : Bool
  deriving DecidableEq, Repr

/-- The session after a sequence of complete exchanges, each submitted after the
previous one has settled. -/
def conversation (s : Session) (rounds : List Round) : Session :=
  rounds.foldl (fun acc r => exchange acc r.text r.outcome r.decodes) s

/-- The exchange settled with a success status and a body that has fields. -/
def isSuccess : Exchange → Bool
  | Exchange.response status (ParsedBody.fields _) => responseOk status
  | _ => false

/-- The audio state after `n` consecutive calls of `speakText` with the same
argument and the same decoding outcome. -/
def speakTextTimes (n : Nat) (a : AudioState) (base64Audio : Option String)
    (decodes : Bool) : AudioState :=
  match n with
  | 0 => a
  | k + 1 => speakText (speakTextTimes k a base64Audio decodes) base64Audio decodes

/-- The prefix of a data URI carrying base64 WAV audio. -/
def dataUriPrefix : String := "data:audio/wav;base64,"

/-- The base subtag of a locale code, in the words of the specification: the
text before the first hyphen. -/
def baseSubtag (code : String) : String :=
  String.mk (code.data.takeWhile (fun c => c != '-'))

/-- A code of exactly two letters. -/
def isTwoLetterCode (code : String) : Bool :=
  code.data.length == 2 && code.data.all Char.isAlpha

/-- The codes offered by the language selector. -/
def localeCodes : List String :=
  languageOptions.map Prod.fst

/-! Lemmas on the string helpers -/

theorem splitChars_of_not_mem (c : Char) :
    ∀ xs : List Char, c ∉ xs → splitChars c xs = [xs]
  | [], _ => rfl
  | x :: xs, h => by
    have hx : x ≠ c := fun e => h (e ▸ List.mem_cons_self x xs)
    have hxs : c ∉ xs := fun m => h (List.mem_cons_of_mem x m)
    simp [splitChars, hx, splitChars_of_not_mem c xs hxs]

theorem splitChars_append_sep (c : Char) (ys : List Char) :
    ∀ xs : List Char, c ∉ xs →
      ∃ rest, splitChars c ys = rest ∧ splitChars c (xs ++ c :: ys) = xs :: rest
  | [], _ => ⟨splitChars c ys, rfl, by simp [splitChars]⟩
  | x :: xs, h => by
    have hx : x ≠ c := fun e => h (e ▸ List.mem_cons_self x xs)
    have hxs : c ∉ xs := fun m => h (List.mem_cons_of_mem x m)
    obtain ⟨rest, hrest, hsplit⟩ := splitChars_append_sep c ys xs hxs
    refine ⟨rest, hrest, ?_⟩
    simp [splitChars, hx, hsplit]

theorem base64String_of_no_comma (p : String) (h : ',' ∉ p.data) : base64String p = p := by
  simp [base64String, h]

theorem base64String_dataUri (p : String) (h : ',' ∉ p.data) :
    base64String (dataUriPrefix ++ p) = p := by
  have hd : (dataUriPrefix ++ p).data = "data:audio/wav;base64".data ++ ',' :: p.data := by
    rw [String.data_append]
    rfl
  have hpre : ',' ∉ "data:audio/wav;base64".data := by decide
  obtain ⟨rest, hrest, hsplit⟩ := splitChars_append_sep ',' p.data _ hpre
  rw [splitChars_of_not_mem ',' p.data h] at hrest
  have hc : (dataUriPrefix ++ p).data.contains ',' = true := by
    rw [hd]
    simp
  unfold base64String
  rw [if_pos hc, hd, hsplit, ← hrest]
  rfl


theorem isBlank_eq_true_iff (t : String) : isBlank t = true ↔ jsTrim t = "" := by
  unfold isBlank
  constructor
  · intro h
    have h1 : (jsTrim t).data = [] := by simpa using h
    exact String.ext h1
  · intro h
    rw [h]
    rfl

/-- A text is blank exactly when it is empty or made of white space only. -/
theorem isBlank_iff_all_whiteSpace (t : String) :
    isBlank t = true ↔ ∀ c ∈ t.data, isJsWhiteSpace c = true := by
  unfold isBlank jsTrim
  constructor
  · intro h
    have h1 : ((t.data.dropWhile isJsWhiteSpace).reverse.dropWhile isJsWhiteSpace).reverse
        = [] := by simpa using h
    have h2 : ∀ c ∈ (t.data.dropWhile isJsWhiteSpace).reverse, isJsWhiteSpace c = true :=
      List.dropWhile_eq_nil_iff.mp (List.reverse_eq_nil_iff.mp h1)
    have h3 : t.data.dropWhile isJsWhiteSpace = [] := by
      by_contra hne
      have hhead := List.head_dropWhile_not isJsWhiteSpace t.data hne
      have hmem : (t.data.dropWhile isJsWhiteSpace).head hne ∈
          (t.data.dropWhile isJsWhiteSpace).reverse :=
        List.mem_reverse.mpr (List.head_mem hne)
      rw [h2 _ hmem] at hhead
      exact Bool.noConfusion hhead
    exact List.dropWhile_eq_nil_iff.mp h3
  · intro h
    rw [List.dropWhile_eq_nil_iff.mpr h]
    rfl

/-- The first piece of a split is the text before the first separator. -/
theorem splitChars_headD (c : Char) :
    ∀ xs : List Char, (splitChars c xs).headD [] = xs.takeWhile (fun x => x != c)
  | [] => rfl
  | x :: xs => by
    have ih := splitChars_headD c xs
    by_cases hx : x = c
    · simp [splitChars, hx]
    · cases hsplit : splitChars c xs with
      | nil =>
        rw [hsplit] at ih
        simp only [List.headD_nil] at ih
        simp [splitChars, hx, hsplit, ← ih]
      | cons q qs =>
        rw [hsplit] at ih
        simp only [List.headD_cons] at ih
        simp [splitChars, hx, hsplit, ih]

theorem languageCode_eq_baseSubtag (code : String) : languageCode code = baseSubtag code := by
  unfold languageCode baseSubtag
  rw [splitChars_headD]

theorem data_isEmpty_eq_false_of_ne (v : String) (h : v ≠ "") : v.data.isEmpty = false := by
  cases hdata : v.data with
  | nil => exact absurd (String.ext hdata) h
  | cons c cs => rfl

/-! Lemmas on the exchange -/

theorem analyzeSymptoms_blank (s : Session) (t : String) (h : isBlank t = true) :
    analyzeSymptoms s t =
      { s with messages := s.messages ++ [assistantSays "Please describe your symptoms."] } := by
  simp [analyzeSymptoms, h]

theorem analyzeSymptoms_nonblank (s : Session) (t : String) (h : isBlank t = false) :
    analyzeSymptoms s t =
      { s with
        messages := s.messages ++ [userSays t],
        isLoading := true,
        requests := s.requests ++
          [{ symptom_description := t, language_code := languageCode s.selectedLanguage }],
        inFlight := s.inFlight + 1 } := by
  simp [analyzeSymptoms, h]

/-- Whatever way the exchange settles, the continuation appends one assistant
message to the transcript it finds. -/
theorem settled_appends_one (s : Session) (o : Exchange) (decodes : Bool) :
    ∃ reply : String,
      (analyzeSymptomsSettled s o decodes).messages = s.messages ++ [assistantSays reply] := by
  cases o with
  | transportFailure => exact ⟨_, rfl⟩
  | unparseableBody status => exact ⟨_, rfl⟩
  | response status data =>
    cases data with
    | null => exact ⟨_, rfl⟩
    | fields d =>
      by_cases hok : responseOk status = true
      · refine ⟨jsOr d.result "No response text provided.", ?_⟩
        simp only [analyzeSymptomsSettled, hok, if_true, finallyBlock, onOk]
        split
        · split <;> rfl
        · rfl
      · refine ⟨"Error: " ++ jsOr d.error "An unknown error occurred on the server.", ?_⟩
        simp [analyzeSymptomsSettled, hok, finallyBlock, onNotOk]

theorem settled_isLoading (s : Session) (o : Exchange) (decodes : Bool) :
    (analyzeSymptomsSettled s o decodes).isLoading = false := by
  cases o with
  | transportFailure => rfl
  | unparseableBody status => rfl
  | response status data =>
    cases data with
    | null => rfl
    | fields d =>
      by_cases hok : responseOk status = true
      · simp only [analyzeSymptomsSettled, hok, if_true, finallyBlock]
      · simp [analyzeSymptomsSettled, hok, finallyBlock]

theorem settled_isListening (s : Session) (o : Exchange) (decodes : Bool) :
    (analyzeSymptomsSettled s o decodes).isListening = s.isListening := by
  cases o with
  | transportFailure => rfl
  | unparseableBody status => rfl
  | response status data =>
    cases data with
    | null => rfl
    | fields d =>
      by_cases hok : responseOk status = true
      · simp only [analyzeSymptomsSettled, hok, if_true, finallyBlock, onOk]
        split
        · split <;> rfl
        · rfl
      · simp [analyzeSymptomsSettled, hok, finallyBlock, onNotOk]

/-- A complete exchange on a non-blank text appends the user message and then
one assistant message. -/
theorem exchange_messages (s : Session) (t : String) (o : Exchange) (decodes : Bool)
    (h : isBlank t = false) :
    ∃ reply : String,
      (exchange s t o decodes).messages = s.messages ++ [userSays t, assistantSays reply] := by
  obtain ⟨reply, hr⟩ := settled_appends_one (analyzeSymptoms s t) o decodes
  refine ⟨reply, ?_⟩
  unfold exchange
  rw [hr, analyzeSymptoms_nonblank s t h]
  simp

theorem exchange_isIdle (s : Session) (t : String) (o : Exchange) (decodes : Bool)
    (h : isBlank t = false) (hs : isIdle s = true) :
    isIdle (exchange s t o decodes) = true := by
  unfold isIdle exchange at *
  rw [settled_isLoading, settled_isListening, analyzeSymptoms_nonblank s t h]
  simp only [Bool.and_eq_true, Bool.not_eq_true'] at hs
  simp [hs.2]

/-- A conversation of non-blank submissions started idle adds two messages per
round and ends idle. -/
theorem conversation_length_idle (rounds : List Round) :
    ∀ s : Session, isIdle s = true → (∀ r ∈ rounds, isBlank r.text = false) →
      (conversation s rounds).messages.length = s.messages.length + 2 * rounds.length ∧
      isIdle (conversation s rounds) = true := by
  induction rounds with
  | nil => intro s hs _; exact ⟨rfl, hs⟩
  | cons r rs ih =>
    intro s hs hall
    have hr : isBlank r.text = false := hall r (List.mem_cons_self r rs)
    have hrs : ∀ x ∈ rs, isBlank x.text = false :=
      fun x hx => hall x (List.mem_cons_of_mem r hx)
    obtain ⟨reply, hm⟩ := exchange_messages s r.text r.outcome r.decodes hr
    have hidle := exchange_isIdle s r.text r.outcome r.decodes hr hs
    obtain ⟨hlen, hfin⟩ := ih (exchange s r.text r.outcome r.decodes) hidle hrs
    refine ⟨?_, hfin⟩
    show (conversation (exchange s r.text r.outcome r.decodes) rs).messages.length = _
    rw [hlen, hm]
    simp only [List.length_append, List.length_cons, List.length_nil]
    omega

/-- The success branch appends the result text, or the fallback text. -/
theorem settled_ok_messages (s : Session) (status : Nat) (d : ResponseData) (decodes : Bool)
    (hok : responseOk status = true) :
    (analyzeSymptomsSettled s (Exchange.response status (ParsedBody.fields d)) decodes).messages
      = s.messages ++ [assistantSays (jsOr d.result "No response text provided.")] := by
  simp only [analyzeSymptomsSettled, hok, if_true, finallyBlock, onOk]
  split
  · split <;> rfl
  · rfl

theorem analyzeSymptoms_messages_append (s : Session) (text : String) :
    ∃ m : ChatMessage, (analyzeSymptoms s text).messages = s.messages ++ [m] := by
  cases hb : isBlank text with
  | true => exact ⟨_, by rw [analyzeSymptoms_blank s text hb]⟩
  | false => exact ⟨_, by rw [analyzeSymptoms_nonblank s text hb]⟩

/-- Every transition keeps the transcript it finds as the beginning of the new
transcript. -/
theorem step_messages_append (s : Session) (cmd : Command) :
    ∃ l : List ChatMessage, (step s cmd).messages = s.messages ++ l := by
  cases cmd with
  | typeText text =>
    refine ⟨[], ?_⟩
    simp only [step, setInputText]
    split <;> simp
  | clickMic =>
    refine ⟨[], ?_⟩
    simp only [step, stopListening, startListening]
    split
    · simp
    · split
      · split <;> simp
      · split
        · simp
        · split <;> simp
  | clickSubmit =>
    simp only [step, handleSubmit]
    split
    · exact ⟨[], by simp⟩
    · obtain ⟨m, hm⟩ := analyzeSymptoms_messages_append s s.inputText
      exact ⟨[m], hm⟩
  | selectLanguage code =>
    refine ⟨[], ?_⟩
    simp only [step, setSelectedLanguage]
    split <;> simp
  | recognitionResult transcript =>
    refine ⟨[], ?_⟩
    simp only [step, onresult]
    split <;> simp
  | recognitionError =>
    refine ⟨[], ?_⟩
    simp only [step, onerror]
    split <;> simp
  | recognitionEnd =>
    refine ⟨[], ?_⟩
    simp only [step, onend]
    split <;> simp
  | analysisSettles o decodes =>
    simp only [step]
    split
    · obtain ⟨reply, hr⟩ := settled_appends_one s o decodes
      exact ⟨[assistantSays reply], hr⟩
    · exact ⟨[], by simp⟩
  | playbackEnds => exact ⟨[], by simp [step]⟩

theorem run_messages_append (cmds : List Command) :
    ∀ s : Session, ∃ l : List ChatMessage, (run s cmds).messages = s.messages ++ l := by
  induction cmds with
  | nil => intro s; exact ⟨[], by simp [run]⟩
  | cons c cs ih =>
    intro s
    obtain ⟨l1, h1⟩ := step_messages_append s c
    obtain ⟨l2, h2⟩ := ih (step s c)
    refine ⟨l1 ++ l2, ?_⟩
    show (run (step s c) cs).messages = _
    rw [h2, h1, List.append_assoc]

/-- With the loading flag down, typing a non-blank text and pressing the submit
button runs `analyzeSymptoms` on that text. -/
theorem run_type_and_submit (x : Session) (t : String)
    (hx : x.isLoading = false) (ht : isBlank t = false) :
    run x [Command.typeText t, Command.clickSubmit] = analyzeSymptoms (setInputText x t) t := by
  simp [run, step, textareaDisabled, submitDisabled, handleSubmit, setInputText, hx, ht]

/-! C1: blank submissions -/

/-- C1: for every text whose trimmed form is empty and every session state,
`analyzeSymptoms` sends no request to the analysis endpoint (the request log
and the in-flight count are unchanged, and so is everything but the
transcript) and the transcript becomes the previous transcript followed by the
single assistant message "Please describe your symptoms.". -/
theorem blank_submit_placeholder_only (s : Session) (text : String)
    (h : jsTrim text = "") :
    (analyzeSymptoms s text).requests = s.requests ∧
    (analyzeSymptoms s text).inFlight = s.inFlight ∧
    (analyzeSymptoms s text).messages =
      s.messages ++ [{ role := Role.assistant, content := "Please describe your symptoms." }] ∧
    analyzeSymptoms s text = { s with messages := (analyzeSymptoms s text).messages } := by
  have hb : isBlank text = true := (isBlank_eq_true_iff text).mpr h
  rw [analyzeSymptoms_blank s text hb]
  exact ⟨rfl, rfl, rfl, rfl⟩

theorem blank_submit_placeholder_only_witness :
    jsTrim " \t\n " = "" ∧
    (analyzeSymptoms (initialSession true) " \t\n ").requests = [] ∧
    (analyzeSymptoms (initialSession true) " \t\n ").messages =
      [{ role := Role.assistant, content := "Please describe your symptoms." }] :=
  have h := blank_submit_placeholder_only (initialSession true) " \t\n " (by decide)
  ⟨by decide, h.1, h.2.2.1⟩

/-! C2: the message of a service error -/

/-- C2, as stated, fails: a status 429 body whose `error` field is present and
is the empty string gives the generic text, not "Error: " followed by the
field. -/
theorem empty_error_field_gets_generic_text :
    (exchange (initialSession true) "I have a fever"
        (Exchange.response 429 (ParsedBody.fields
          { result := none, speech_data := none, message := none, isValidbase64 := none,
            error := some "" })) false).messages =
      [userSays "I have a fever",
       assistantSays "Error: An unknown error occurred on the server."] ∧
    (exchange (initialSession true) "I have a fever"
        (Exchange.response 429 (ParsedBody.fields
          { result := none, speech_data := none, message := none, isValidbase64 := none,
            error := some "" })) false).messages ≠
      [userSays "I have a fever", assistantSays ("Error: " ++ "")] := by
  constructor <;> decide

/-- C2, amended: for every non-blank submission answered with a non-success
status and a body with fields, the assistant message appended is "Error: "
followed by the `error` field when the field is a non-empty string, and
"Error: An unknown error occurred on the server." when the field is absent,
`null` or the empty string; a field "Rate limited" gives "Error: Rate limited". -/
theorem service_error_message (s : Session) (text : String) (status : Nat)
    (d : ResponseData) (decodes : Bool)
    (htext : isBlank text = false) (hstatus : responseOk status = false) :
    (∀ e : String, d.error = some e → e ≠ "" →
      (exchange s text (Exchange.response status (ParsedBody.fields d)) decodes).messages =
        s.messages ++ [userSays text, assistantSays ("Error: " ++ e)]) ∧
    (d.error = none ∨ d.error = some "" →
      (exchange s text (Exchange.response status (ParsedBody.fields d)) decodes).messages =
        s.messages ++ [userSays text,
          assistantSays "Error: An unknown error occurred on the server."]) ∧
    (d.error = some "Rate limited" →
      (exchange s text (Exchange.response status (ParsedBody.fields d)) decodes).messages =
        s.messages ++ [userSays text, assistantSays "Error: Rate limited"]) := by
  have hm : (exchange s text (Exchange.response status (ParsedBody.fields d)) decodes).messages =
      s.messages ++ [userSays text,
        assistantSays ("Error: " ++ jsOr d.error "An unknown error occurred on the server.")] := by
    simp [exchange, analyzeSymptomsSettled, hstatus, finallyBlock, onNotOk,
      analyzeSymptoms_nonblank s text htext]
  refine ⟨?_, ?_, ?_⟩
  · intro e he hne
    have hd : e.data.isEmpty = false := by
      cases hdata : e.data with
      | nil => exact absurd (String.ext hdata) hne
      | cons c cs => rfl
    rw [hm, he]
    simp [jsOr, hd]
  · intro he
    rw [hm]
    rcases he with he | he <;> rw [he] <;> rfl
  · intro he
    rw [hm, he]
    rfl

theorem service_error_message_witness :
    (exchange (initialSession true) "I have a fever"
        (Exchange.response 429 (ParsedBody.fields
          { result := none, speech_data := none, message := none, isValidbase64 := none,
            error := some "Rate limited" })) false).messages =
      [userSays "I have a fever", assistantSays "Error: Rate limited"] :=
  (service_error_message (initialSession true) "I have a fever" 429
      { result := none, speech_data := none, message := none, isValidbase64 := none,
        error := some "Rate limited" } false (by decide) (by decide)).2.2 rfl

/-! C3: one user message, then one assistant message -/

/-- C3: for every non-blank text submitted from an idle session and every way
the exchange settles (a response of any status with any body, a transport
failure, an unparseable body), the transcript after the exchange has settled
is the transcript before the submit followed by the user message with that
text and then exactly one assistant message, and the session is idle again. -/
theorem submit_appends_user_then_one_assistant (s : Session) (text : String)
    (o : Exchange) (decodes : Bool)
    (hidle : isIdle s = true) (htext : isBlank text = false) :
    ∃ m : ChatMessage, m.role = Role.assistant ∧
      (analyzeSymptoms s text).messages =
        s.messages ++ [{ role := Role.user, content := text }] ∧
      (analyzeSymptomsSettled (analyzeSymptoms s text) o decodes).messages =
        s.messages ++ [{ role := Role.user, content := text }, m] ∧
      (analyzeSymptomsSettled (analyzeSymptoms s text) o decodes).messages.length =
        s.messages.length + 2 ∧
      isIdle (analyzeSymptomsSettled (analyzeSymptoms s text) o decodes) = true := by
  obtain ⟨reply, hr⟩ := exchange_messages s text o decodes htext
  refine ⟨assistantSays reply, rfl, ?_, hr, ?_, exchange_isIdle s text o decodes htext hidle⟩
  · rw [analyzeSymptoms_nonblank s text htext]
    rfl
  · have hr2 : (analyzeSymptomsSettled (analyzeSymptoms s text) o decodes).messages =
        s.messages ++ [userSays text, assistantSays reply] := hr
    rw [hr2]
    simp

theorem submit_appends_user_then_one_assistant_witness :
    isIdle (initialSession true) = true ∧ isBlank "cough" = false ∧
    (analyzeSymptomsSettled (analyzeSymptoms (initialSession true) "cough")
      Exchange.transportFailure false).messages.length = 0 + 2 :=
  match submit_appends_user_then_one_assistant (initialSession true) "cough"
    Exchange.transportFailure false (by decide) (by decide) with
  | ⟨_, _, _, _, hlen, _⟩ => ⟨by decide, by decide, hlen⟩

/-! C4: two messages per successful exchange -/

/-- C4: for every number N and every sequence of N non-blank submissions, each
answered with a successful analysis response, started from an idle session
with an empty transcript: every submission is issued while the session is
idle, and the transcript after the last one has settled has exactly 2N
messages. -/
theorem transcript_length_two_per_round (s : Session) (rounds : List Round)
    (hempty : s.messages = []) (hidle : isIdle s = true)
    (htext : ∀ r ∈ rounds, isBlank r.text = false)
    (_hok : ∀ r ∈ rounds, isSuccess r.outcome = true) :
    (conversation s rounds).messages.length = 2 * rounds.length ∧
    ∀ k : Nat, k ≤ rounds.length → isIdle (conversation s (rounds.take k)) = true := by
  constructor
  · have h := (conversation_length_idle rounds s hidle htext).1
    rw [h, hempty]
    simp
  · intro k _
    exact (conversation_length_idle (rounds.take k) s hidle
      (fun r hr => htext r (List.mem_of_mem_take hr))).2

theorem transcript_length_two_per_round_witness :
    (conversation (initialSession true)
      [{ text := "fever", decodes := true,
         outcome := Exchange.response 200 (ParsedBody.fields
          { result := some "Rest and hydrate.", speech_data := some "AAAA",
            message := none, isValidbase64 := some true, error := none }) },
       { text := "cough", decodes := false,
         outcome := Exchange.response 200 (ParsedBody.fields
          { result := none, speech_data := none,
            message := none, isValidbase64 := none, error := none }) }]).messages.length
      = 2 * 2 :=
  (transcript_length_two_per_round (initialSession true)
      [{ text := "fever", decodes := true,
         outcome := Exchange.response 200 (ParsedBody.fields
          { result := some "Rest and hydrate.", speech_data := some "AAAA",
            message := none, isValidbase64 := some true, error := none }) },
       { text := "cough", decodes := false,
         outcome := Exchange.response 200 (ParsedBody.fields
          { result := none, speech_data := none,
            message := none, isValidbase64 := none, error := none }) }]
      rfl (by decide) (by decide) (by decide)).1

/-! C5: a submit while a request is in flight -/

/-- C5, as stated, fails: after "fever" has been submitted through the form and
while its request is in flight, a second call of `handleSubmit` appends a
second user message and sends a second request at once, and the messages of
the two submissions end up interleaved. -/
theorem submit_while_loading_not_rejected :
    (run (initialSession true) [Command.typeText "fever", Command.clickSubmit]).isLoading
      = true ∧
    (handleSubmit (run (initialSession true)
        [Command.typeText "fever", Command.clickSubmit])).messages =
      [userSays "fever", userSays "fever"] ∧
    (handleSubmit (run (initialSession true)
        [Command.typeText "fever", Command.clickSubmit])).requests.length = 2 ∧
    (analyzeSymptomsSettled (analyzeSymptomsSettled
        (analyzeSymptoms (analyzeSymptoms (initialSession true) "fever") "cough")
        Exchange.transportFailure false) (Exchange.unparseableBody 500) false).messages =
      [userSays "fever", userSays "cough",
       assistantSays "Something went wrong. Please try again later.",
       assistantSays "Something went wrong. Please try again later."] := by
  refine ⟨?_, ?_, ?_, ?_⟩ <;> decide

/-- C5, amended: while a request is in flight (`isLoading` true) the submit
button, the textarea and the microphone button are disabled, so a submit made
through the form controls changes nothing; the session itself has no guard:
`analyzeSymptoms` called with a non-blank text while `isLoading` is true
appends the user message and sends a new request at once. -/
theorem submit_while_loading_guarded_by_controls_only (s : Session) (text : String)
    (hload : s.isLoading = true) (htext : isBlank text = false) :
    submitDisabled s = true ∧
    step s Command.clickSubmit = s ∧
    step s (Command.typeText text) = s ∧
    step s Command.clickMic = s ∧
    (analyzeSymptoms s text).messages = s.messages ++ [userSays text] ∧
    (analyzeSymptoms s text).requests = s.requests ++
      [{ symptom_description := text, language_code := languageCode s.selectedLanguage }] ∧
    (analyzeSymptoms s text).inFlight = s.inFlight + 1 := by
  rw [analyzeSymptoms_nonblank s text htext]
  simp [step, submitDisabled, textareaDisabled, micButtonDisabled, hload]

theorem submit_while_loading_guarded_by_controls_only_witness :
    (analyzeSymptoms (initialSession true) "fever").isLoading = true ∧
    step (analyzeSymptoms (initialSession true) "fever") Command.clickSubmit =
      analyzeSymptoms (initialSession true) "fever" ∧
    (analyzeSymptoms (analyzeSymptoms (initialSession true) "fever") "cough").messages =
      (analyzeSymptoms (initialSession true) "fever").messages ++ [userSays "cough"] :=
  have h := submit_while_loading_guarded_by_controls_only
    (analyzeSymptoms (initialSession true) "fever") "cough" (by decide) (by decide)
  ⟨by decide, h.2.1, h.2.2.2.2.1⟩

/-! C6: selecting a locale -/

/-- C6: for every locale code, selecting it while a request is in flight
(`isLoading` true) fails, the selector being disabled, and leaves the selected
locale and the rest of the session unchanged; selecting it in an idle session
succeeds and makes it the selected locale; and a session that was idle before
a non-blank submit is in flight after the submit and idle again once the
exchange has settled, whatever its outcome. -/
theorem select_language_blocked_until_idle (s : Session) (code : String) :
    (s.isLoading = true →
      languageSelectDisabled s = true ∧ step s (Command.selectLanguage code) = s ∧
      (step s (Command.selectLanguage code)).selectedLanguage = s.selectedLanguage) ∧
    (isIdle s = true →
      languageSelectDisabled s = false ∧
      (step s (Command.selectLanguage code)).selectedLanguage = code) ∧
    (∀ (text : String) (o : Exchange) (decodes : Bool),
      isIdle s = true → isBlank text = false →
      (analyzeSymptoms s text).isLoading = true ∧
      (step (analyzeSymptoms s text) (Command.selectLanguage code)).selectedLanguage =
        s.selectedLanguage ∧
      isIdle (analyzeSymptomsSettled (analyzeSymptoms s text) o decodes) = true ∧
      (step (analyzeSymptomsSettled (analyzeSymptoms s text) o decodes)
        (Command.selectLanguage code)).selectedLanguage = code) := by
  have hblocked : ∀ x : Session, x.isLoading = true →
      step x (Command.selectLanguage code) = x := by
    intro x hx
    simp [step, languageSelectDisabled, hx]
  have hfree : ∀ x : Session, isIdle x = true →
      languageSelectDisabled x = false ∧
      (step x (Command.selectLanguage code)).selectedLanguage = code := by
    intro x hx
    simp only [isIdle, Bool.and_eq_true, Bool.not_eq_true'] at hx
    simp [step, languageSelectDisabled, setSelectedLanguage, hx.1, hx.2]
  refine ⟨?_, hfree s, ?_⟩
  · intro hload
    refine ⟨by simp [languageSelectDisabled, hload], hblocked s hload, ?_⟩
    rw [hblocked s hload]
  · intro text o decodes hidle htext
    have hin : (analyzeSymptoms s text).isLoading = true := by
      rw [analyzeSymptoms_nonblank s text htext]
    have hout := exchange_isIdle s text o decodes htext hidle
    refine ⟨hin, ?_, hout, (hfree _ hout).2⟩
    rw [hblocked _ hin, analyzeSymptoms_nonblank s text htext]

theorem select_language_blocked_until_idle_witness :
    (analyzeSymptoms (initialSession true) "fever").isLoading = true ∧
    step (analyzeSymptoms (initialSession true) "fever") (Command.selectLanguage "hi-IN") =
      analyzeSymptoms (initialSession true) "fever" ∧
    isIdle (initialSession true) = true ∧
    (step (initialSession true) (Command.selectLanguage "hi-IN")).selectedLanguage = "hi-IN" :=
  ⟨by decide,
   ((select_language_blocked_until_idle (analyzeSymptoms (initialSession true) "fever")
      "hi-IN").1 (by decide)).2.1,
   by decide,
   ((select_language_blocked_until_idle (initialSession true) "hi-IN").2.1 (by decide)).2⟩

/-! C7: a capture that is stopped -/

/-- C7, as stated, fails: after a capture is started and stopped with the
microphone button, a recognition result delivered by that attempt replaces the
pending input text, which was empty before the capture started. -/
theorem late_result_after_stop_is_applied :
    (run (initialSession true) [Command.clickMic, Command.clickMic]).inputText = "" ∧
    (run (initialSession true) [Command.clickMic, Command.clickMic]).isListening = false ∧
    (run (initialSession true)
      [Command.clickMic, Command.clickMic, Command.recognitionResult "late words"]).inputText
      = "late words" ∧
    (onresult (stopListening (startListening (initialSession true))) "late words").inputText
      ≠ (initialSession true).inputText := by
  refine ⟨?_, ?_, ?_, ?_⟩ <;> decide

/-- C7, amended: `stopListening` leaves the pending input text and the
transcript unchanged; a recognition result delivered afterwards is applied by
`onresult`: the pending input text becomes the transcript of that result, and
the message transcript stays unchanged. -/
theorem stop_keeps_input_and_late_result_replaces_it (s : Session) (transcript : String) :
    (stopListening s).inputText = s.inputText ∧
    (stopListening s).messages = s.messages ∧
    (stopListening (startListening s)).inputText = s.inputText ∧
    (stopListening (startListening s)).messages = s.messages ∧
    (onresult (stopListening (startListening s)) transcript).inputText = transcript ∧
    (onresult (stopListening (startListening s)) transcript).messages = s.messages := by
  unfold onresult stopListening startListening
  cases hs : s.speechSupported <;> cases hr : s.recognizing <;> simp [hs]

/-! C8: listening and loading at once -/

/-- C8, as stated, fails: typing a text, pressing the microphone button and then
the submit button, each enabled at that moment, reaches a state in which
`isListening` and `isLoading` are both true. -/
theorem listening_and_loading_both_true :
    (run (initialSession true)
      [Command.typeText "fever", Command.clickMic, Command.clickSubmit]).isListening = true ∧
    (run (initialSession true)
      [Command.typeText "fever", Command.clickMic, Command.clickSubmit]).isLoading = true := by
  constructor <;> decide

/-- C8, amended: a capture is never started while a request is in flight: every
command that turns `isListening` from false to true is taken in a state where
`isLoading` is false and leaves it false.  (A submit while `isListening` is
true is accepted, so the two flags can be true together.) -/
theorem capture_never_starts_while_loading (s : Session) (cmd : Command)
    (hbefore : s.isListening = false) (hafter : (step s cmd).isListening = true) :
    s.isLoading = false ∧ (step s cmd).isLoading = false := by
  cases cmd with
  | typeText text =>
    exfalso
    simp only [step, textareaDisabled, setInputText] at hafter
    split at hafter <;> simp_all
  | clickMic =>
    cases hload : s.isLoading with
    | true =>
      exfalso
      simp [step, micButtonDisabled, hload, hbefore] at hafter
    | false =>
      refine ⟨rfl, ?_⟩
      simp only [step, micButtonDisabled, hload, hbefore, startListening]
      cases hs : s.speechSupported <;> cases hr : s.recognizing <;> simp [hload]
  | clickSubmit =>
    exfalso
    simp only [step, handleSubmit, analyzeSymptoms] at hafter
    split at hafter
    · simp_all
    · split at hafter <;> simp_all
  | selectLanguage code =>
    exfalso
    simp only [step, setSelectedLanguage] at hafter
    split at hafter <;> simp_all
  | recognitionResult transcript =>
    exfalso
    simp only [step, onresult] at hafter
    split at hafter <;> simp_all
  | recognitionError =>
    exfalso
    simp only [step, onerror] at hafter
    split at hafter <;> simp_all
  | recognitionEnd =>
    exfalso
    simp only [step, onend] at hafter
    split at hafter <;> simp_all
  | analysisSettles o decodes =>
    exfalso
    simp only [step] at hafter
    split at hafter
    · rw [settled_isListening, hbefore] at hafter
      exact Bool.noConfusion hafter
    · simp_all
  | playbackEnds =>
    exfalso
    simp only [step] at hafter
    simp_all

theorem capture_never_starts_while_loading_witness :
    (initialSession true).isListening = false ∧
    (step (initialSession true) Command.clickMic).isListening = true ∧
    (step (initialSession true) Command.clickMic).isLoading = false :=
  ⟨rfl, by decide,
   (capture_never_starts_while_loading (initialSession true) Command.clickMic
      rfl (by decide)).2⟩

/-! C9: the audio context of a playback whose decoding fails -/

/-- C9 fails on the code: a call of `speakText` with the payload "AAAA", valid
base64 for three zero bytes that `decodeAudioData` rejects, constructs an audio
context and never closes it.  After `n` such calls from a fresh audio state,
`n` contexts have been created and none closed, no source is playing, so that
no `onended` will close them; after 1000 calls the counts are 1000 and 0.  (When
the audio decodes, the `onended` of the started source does close the
context.) -/
theorem decode_failure_leaves_context_open (n : Nat) :
    (speakTextTimes n { created := 0, closed := 0, playing := 0 } (some "AAAA") false)
      = { created := n, closed := 0, playing := 0 } ∧
    onended (speakTextTimes n { created := 0, closed := 0, playing := 0 } (some "AAAA") false)
      = { created := n, closed := 0, playing := 0 } ∧
    (speakTextTimes 1000 { created := 0, closed := 0, playing := 0 } (some "AAAA") false).created
      ≠ (speakTextTimes 1000 { created := 0, closed := 0, playing := 0 }
          (some "AAAA") false).closed ∧
    onended (speakText { created := 0, closed := 0, playing := 0 } (some "AAAA") true)
      = { created := 1, closed := 1, playing := 0 } := by
  have hone : ∀ a : AudioState,
      speakText a (some "AAAA") false = { a with created := a.created + 1 } := by
    intro a
    have hin : decoderInput (some "AAAA") = some "AAAA" := by decide
    have hat : atob "AAAA" = some [0, 0, 0] := by decide
    simp [speakText, hin, hat]
  have hall : ∀ k : Nat,
      speakTextTimes k { created := 0, closed := 0, playing := 0 } (some "AAAA") false
        = { created := k, closed := 0, playing := 0 } := by
    intro k
    induction k with
    | zero => rfl
    | succ k ih =>
      show speakText (speakTextTimes k _ _ _) _ _ = _
      rw [ih, hone]
  refine ⟨hall n, ?_, ?_, by decide⟩
  · rw [hall n]
    rfl
  · rw [hall 1000]
    decide

/-! C10: the data URI prefix -/

/-- C10, as stated, fails: for the payload "AAAA,BBBB" the text handed to the
decoder is "BBBB", and with the data URI prefix in front it is "AAAA"; the two
decode to different bytes. -/
theorem prefix_changes_decoder_input_of_payload_with_comma :
    decoderInput (some (dataUriPrefix ++ "AAAA,BBBB")) = some "AAAA" ∧
    decoderInput (some "AAAA,BBBB") = some "BBBB" ∧
    decoderInput (some (dataUriPrefix ++ "AAAA,BBBB")) ≠ decoderInput (some "AAAA,BBBB") ∧
    atob "AAAA" ≠ atob "BBBB" := by
  refine ⟨?_, ?_, ?_, ?_⟩ <;> decide

/-- C10, amended: for every non-empty payload that contains no comma (as every
base64 text does), the text `speakText` hands to the decoder for the payload
with the prefix "data:audio/wav;base64," in front is the payload itself, the
same as for the payload alone, and the two calls do the same. -/
theorem prefix_stripped_before_decoding (p : String)
    (hcomma : ',' ∉ p.data) (hne : p ≠ "") :
    decoderInput (some ("data:audio/wav;base64," ++ p)) = some p ∧
    decoderInput (some p) = some p ∧
    ∀ (a : AudioState) (decodes : Bool),
      speakText a (some ("data:audio/wav;base64," ++ p)) decodes =
        speakText a (some p) decodes := by
  have hp : p.data.isEmpty = false := by
    cases hdata : p.data with
    | nil => exact absurd (String.ext hdata) hne
    | cons c cs => rfl
  have hq : ("data:audio/wav;base64," ++ p).data.isEmpty = false := by
    rw [String.data_append]
    rfl
  have h1 : decoderInput (some ("data:audio/wav;base64," ++ p)) = some p := by
    have hb := base64String_dataUri p hcomma
    unfold dataUriPrefix at hb
    simp [decoderInput, hq, hb]
  have h2 : decoderInput (some p) = some p := by
    simp [decoderInput, hp, base64String_of_no_comma p hcomma]
  refine ⟨h1, h2, ?_⟩
  intro a decodes
  unfold speakText
  rw [h1, h2]

theorem prefix_stripped_before_decoding_witness :
    ',' ∉ "UklGRg==".data ∧ "UklGRg==" ≠ "" ∧
    decoderInput (some ("data:audio/wav;base64," ++ "UklGRg==")) =
      decoderInput (some "UklGRg==") :=
  have h := prefix_stripped_before_decoding "UklGRg==" (by decide) (by decide)
  ⟨by decide, by decide, h.1.trans h.2.1.symm⟩

/-! C11: when the reply is spoken -/

/-- C11, as stated, fails: a success response whose `speech_data` field is
present and is the empty string, with `isValidbase64` true, does not invoke
`speakText` at all. -/
theorem empty_speech_data_is_not_played :
    (analyzeSymptomsSettled (analyzeSymptoms (initialSession true) "I have a fever")
        (Exchange.response 200 (ParsedBody.fields
          { result := some "Rest and hydrate.", speech_data := some "", message := none,
            isValidbase64 := some true, error := none })) true).playbackCalls = [] ∧
    (analyzeSymptomsSettled (analyzeSymptoms (initialSession true) "I have a fever")
        (Exchange.response 200 (ParsedBody.fields
          { result := some "Rest and hydrate.", speech_data := some "", message := none,
            isValidbase64 := some true, error := none })) true).playbackCalls ≠ [""] := by
  constructor <;> decide

/-- C11, amended: for every successful analysis response, `speakText` is invoked
exactly once, with the response's `speech_data`, when `speech_data` is a
non-empty string and `isValidbase64` is true, and is not invoked at all
otherwise: not when `isValidbase64` is false or absent, whatever `speech_data`
is, and not when `speech_data` is absent, `null` or the empty string. -/
theorem playback_invoked_iff_valid_speech_data (s : Session) (status : Nat)
    (d : ResponseData) (decodes : Bool) (hok : responseOk status = true) :
    (∀ v : String, d.speech_data = some v → v ≠ "" → d.isValidbase64 = some true →
      (analyzeSymptomsSettled s (Exchange.response status (ParsedBody.fields d))
        decodes).playbackCalls = s.playbackCalls ++ [v] ∧
      (analyzeSymptomsSettled s (Exchange.response status (ParsedBody.fields d))
        decodes).audio = speakText s.audio (some v) decodes) ∧
    (d.isValidbase64 ≠ some true →
      (analyzeSymptomsSettled s (Exchange.response status (ParsedBody.fields d))
        decodes).playbackCalls = s.playbackCalls ∧
      (analyzeSymptomsSettled s (Exchange.response status (ParsedBody.fields d))
        decodes).audio = s.audio) ∧
    (d.speech_data = none ∨ d.speech_data = some "" →
      (analyzeSymptomsSettled s (Exchange.response status (ParsedBody.fields d))
        decodes).playbackCalls = s.playbackCalls ∧
      (analyzeSymptomsSettled s (Exchange.response status (ParsedBody.fields d))
        decodes).audio = s.audio) := by
  refine ⟨?_, ?_, ?_⟩
  · intro v hv hne hvalid
    have hd := data_isEmpty_eq_false_of_ne v hne
    simp [analyzeSymptomsSettled, hok, finallyBlock, onOk, hv, hd, hvalid]
  · intro hvalid
    have hb : (d.isValidbase64 == some true) = false := by
      simpa using hvalid
    simp only [analyzeSymptomsSettled, hok, if_true, finallyBlock, onOk, hb]
    split <;> simp
  · intro hv
    rcases hv with hv | hv <;>
      simp [analyzeSymptomsSettled, hok, finallyBlock, onOk, hv]

theorem playback_invoked_iff_valid_speech_data_witness :
    responseOk 200 = true ∧
    (analyzeSymptomsSettled (analyzeSymptoms (initialSession true) "I have a fever and cough")
        (Exchange.response 200 (ParsedBody.fields
          { result := some "Rest and hydrate.", speech_data := some "UklGRg==",
            message := none, isValidbase64 := some true, error := none }))
        true).playbackCalls = [] ++ ["UklGRg=="] :=
  ⟨by decide,
   ((playback_invoked_iff_valid_speech_data
      (analyzeSymptoms (initialSession true) "I have a fever and cough") 200
      { result := some "Rest and hydrate.", speech_data := some "UklGRg==",
        message := none, isValidbase64 := some true, error := none }
      true (by decide)).1 "UklGRg==" rfl (by decide) rfl).1⟩

/-! C12: the request body -/

/-- C12: for every locale code of the language selector, the `language_code` of
the request sent for a non-blank submission is the base subtag of the selected
locale (the text before the first hyphen), which is a code of exactly two
letters, and the `symptom_description` sent is the submitted text unchanged;
for the locale en-US and the text "I have a fever and cough" the body is
that text with the language code "en". -/
theorem request_body_of_submission (s : Session) (text : String)
    (hlocale : s.selectedLanguage ∈ localeCodes) (htext : isBlank text = false) :
    (analyzeSymptoms s text).requests = s.requests ++
      [{ symptom_description := text, language_code := baseSubtag s.selectedLanguage }] ∧
    isTwoLetterCode (baseSubtag s.selectedLanguage) = true ∧
    (s.selectedLanguage = "en-US" → text = "I have a fever and cough" →
      (analyzeSymptoms s text).requests = s.requests ++
        [{ symptom_description := "I have a fever and cough", language_code := "en" }]) := by
  have hreq : (analyzeSymptoms s text).requests = s.requests ++
      [{ symptom_description := text, language_code := baseSubtag s.selectedLanguage }] := by
    rw [analyzeSymptoms_nonblank s text htext, languageCode_eq_baseSubtag]
  have htwo : ∀ code ∈ localeCodes, isTwoLetterCode (baseSubtag code) = true := by decide
  refine ⟨hreq, htwo _ hlocale, ?_⟩
  intro hen htxt
  rw [hreq, hen, htxt]
  rfl

theorem request_body_of_submission_witness :
    (initialSession true).selectedLanguage ∈ localeCodes ∧
    isBlank "I have a fever and cough" = false ∧
    (analyzeSymptoms (initialSession true) "I have a fever and cough").requests =
      [] ++ [{ symptom_description := "I have a fever and cough", language_code := "en" }] :=
  ⟨by decide, by decide,
   (request_body_of_submission (initialSession true) "I have a fever and cough"
      (by decide) (by decide)).2.2 rfl rfl⟩

/-! C13: the transcript only grows at its end -/

/-- C13: every session operation leaves the previous transcript as a prefix of
the new transcript, so the length never decreases: every command, every
sequence of commands, a submit (blank or not) and the settling of an exchange in
any way; starting and stopping a capture, the capture result, error and end
handlers, the locale selection and the end of a playback leave the transcript
exactly unchanged, and whether the audio of a reply decodes or fails makes no
difference to the transcript. -/
theorem transcript_is_append_only (s : Session) :
    (∀ cmd : Command, s.messages <+: (step s cmd).messages) ∧
    (∀ cmds : List Command, s.messages <+: (run s cmds).messages ∧
      s.messages.length ≤ (run s cmds).messages.length) ∧
    (∀ text : String, s.messages <+: (analyzeSymptoms s text).messages) ∧
    (∀ (o : Exchange) (decodes : Bool),
      s.messages <+: (analyzeSymptomsSettled s o decodes).messages) ∧
    ((startListening s).messages = s.messages ∧ (stopListening s).messages = s.messages ∧
      (∀ t : String, (onresult s t).messages = s.messages) ∧
      (onerror s).messages = s.messages ∧ (onend s).messages = s.messages ∧
      (∀ code : String, (setSelectedLanguage s code).messages = s.messages)) ∧
    ((step s Command.clickMic).messages = s.messages ∧
      (∀ t : String, (step s (Command.recognitionResult t)).messages = s.messages) ∧
      (step s Command.recognitionError).messages = s.messages ∧
      (step s Command.recognitionEnd).messages = s.messages ∧
      (∀ code : String, (step s (Command.selectLanguage code)).messages = s.messages) ∧
      (step s Command.playbackEnds).messages = s.messages) ∧
    (∀ o : Exchange, (analyzeSymptomsSettled s o true).messages =
      (analyzeSymptomsSettled s o false).messages) := by
  refine ⟨?_, ?_, ?_, ?_, ?_, ?_, ?_⟩
  · intro cmd
    obtain ⟨l, hl⟩ := step_messages_append s cmd
    exact ⟨l, hl.symm⟩
  · intro cmds
    obtain ⟨l, hl⟩ := run_messages_append cmds s
    refine ⟨⟨l, hl.symm⟩, ?_⟩
    rw [hl, List.length_append]
    exact Nat.le_add_right _ _
  · intro text
    obtain ⟨m, hm⟩ := analyzeSymptoms_messages_append s text
    exact ⟨[m], hm.symm⟩
  · intro o decodes
    obtain ⟨reply, hr⟩ := settled_appends_one s o decodes
    exact ⟨[assistantSays reply], hr.symm⟩
  · refine ⟨?_, ?_, fun _ => rfl, rfl, rfl, fun _ => rfl⟩
    · simp only [startListening]
      split
      · rfl
      · split <;> rfl
    · simp only [stopListening]
      split <;> rfl
  · refine ⟨?_, ?_, ?_, ?_, ?_, rfl⟩
    · simp only [step, stopListening, startListening]
      split
      · rfl
      · split
        · split <;> rfl
        · split
          · rfl
          · split <;> rfl
    · intro t
      simp only [step, onresult]
      split <;> rfl
    · simp only [step, onerror]
      split <;> rfl
    · simp only [step, onend]
      split <;> rfl
    · intro code
      simp only [step, setSelectedLanguage]
      split <;> rfl
  · intro o
    cases o with
    | transportFailure => rfl
    | unparseableBody status => rfl
    | response status data =>
      cases data with
      | null => rfl
      | fields d =>
        by_cases hok : responseOk status = true
        · rw [settled_ok_messages s status d true hok, settled_ok_messages s status d false hok]
        · simp [analyzeSymptomsSettled, hok, finallyBlock, onNotOk]

/-! C14: what a failure leaves behind -/

/-- C14, as stated, fails: after typing a text, pressing the microphone button
and pressing the submit button, each enabled at that moment, a transport
failure clears `isLoading` but leaves `isListening` true, so the session is not
idle; and in that same state a recognition error clears `isListening` but the
microphone button stays disabled by `isLoading`, so a further press of it
starts no capture. -/
theorem failure_does_not_always_return_to_idle :
    (run (initialSession true)
      [Command.typeText "fever", Command.clickMic, Command.clickSubmit,
       Command.analysisSettles Exchange.transportFailure false]).isLoading = false ∧
    (run (initialSession true)
      [Command.typeText "fever", Command.clickMic, Command.clickSubmit,
       Command.analysisSettles Exchange.transportFailure false]).isListening = true ∧
    isIdle (run (initialSession true)
      [Command.typeText "fever", Command.clickMic, Command.clickSubmit,
       Command.analysisSettles Exchange.transportFailure false]) = false ∧
    (run (initialSession true)
      [Command.typeText "fever", Command.clickMic, Command.clickSubmit,
       Command.recognitionError]).isListening = false ∧
    micButtonDisabled (run (initialSession true)
      [Command.typeText "fever", Command.clickMic, Command.clickSubmit,
       Command.recognitionError]) = true ∧
    (run (initialSession true)
      [Command.typeText "fever", Command.clickMic, Command.clickSubmit,
       Command.recognitionError, Command.clickMic]).isListening = false := by
  refine ⟨?_, ?_, ?_, ?_, ?_, ?_⟩ <;> decide

/-- C14, amended: a failure clears the flag of the activity that failed and
leaves the other flag as it was.  For every non-blank submission from any
state, once the exchange has settled with a service error, a transport failure
or an unparseable body, `isLoading` is false, `isListening` is what it was
before the submit, and a further submit is accepted: typing a non-blank text
and pressing the submit button appends its user message and sends its request.
After a recognition error or end, `isListening` is false and `isLoading` is
unchanged; a further press of the microphone button then starts a capture when
`isLoading` is false and starts none when `isLoading` is true.  When the session
was idle before the activity that failed, it is idle again after the failure,
and a further capture is accepted. -/
theorem failure_clears_its_own_flag (s : Session) (text next : String) (o : Exchange)
    (decodes : Bool) (htext : isBlank text = false) (hnext : isBlank next = false)
    (_hfail : isSuccess o = false) :
    ((analyzeSymptomsSettled (analyzeSymptoms s text) o decodes).isLoading = false ∧
      (analyzeSymptomsSettled (analyzeSymptoms s text) o decodes).isListening
        = s.isListening ∧
      (run (analyzeSymptomsSettled (analyzeSymptoms s text) o decodes)
          [Command.typeText next, Command.clickSubmit]).messages =
        (analyzeSymptomsSettled (analyzeSymptoms s text) o decodes).messages ++
          [userSays next] ∧
      (run (analyzeSymptomsSettled (analyzeSymptoms s text) o decodes)
          [Command.typeText next, Command.clickSubmit]).requests.length =
        (analyzeSymptomsSettled (analyzeSymptoms s text) o decodes).requests.length + 1) ∧
    ((∀ x : Session, (onerror x).isListening = false ∧ (onend x).isListening = false ∧
        (onerror x).isLoading = x.isLoading ∧ (onend x).isLoading = x.isLoading) ∧
      (∀ x : Session, x.recognizing = true →
        (step x Command.recognitionError).isListening = false ∧
        (step x Command.recognitionEnd).isListening = false ∧
        (step x Command.recognitionError).isLoading = x.isLoading ∧
        (step x Command.recognitionEnd).isLoading = x.isLoading) ∧
      (∀ x : Session, x.recognizing = true → x.speechSupported = true →
        x.isLoading = false →
        (run x [Command.recognitionError, Command.clickMic]).isListening = true ∧
        (run x [Command.recognitionEnd, Command.clickMic]).isListening = true) ∧
      (∀ x : Session, x.recognizing = true → x.isLoading = true →
        (run x [Command.recognitionError, Command.clickMic]).isListening = false ∧
        (run x [Command.recognitionEnd, Command.clickMic]).isListening = false)) ∧
    (isIdle s = true →
      isIdle (analyzeSymptomsSettled (analyzeSymptoms s text) o decodes) = true ∧
      (s.speechSupported = true → s.recognizing = false →
        (step s Command.clickMic).isListening = true ∧
        isIdle (run s [Command.clickMic, Command.recognitionError]) = true ∧
        isIdle (run s [Command.clickMic, Command.recognitionEnd]) = true ∧
        (run s [Command.clickMic, Command.recognitionError, Command.clickMic]).isListening
          = true ∧
        (run s [Command.clickMic, Command.recognitionEnd, Command.clickMic]).isListening
          = true)) := by
  refine ⟨?_, ⟨fun _ => ⟨rfl, rfl, rfl, rfl⟩, ?_, ?_, ?_⟩, ?_⟩
  · have hload := settled_isLoading (analyzeSymptoms s text) o decodes
    refine ⟨hload, ?_, ?_, ?_⟩
    · rw [settled_isListening, analyzeSymptoms_nonblank s text htext]
    · rw [run_type_and_submit _ next hload hnext, analyzeSymptoms_nonblank _ next hnext]
      rfl
    · rw [run_type_and_submit _ next hload hnext, analyzeSymptoms_nonblank _ next hnext]
      simp [setInputText]
  · intro x hx
    simp [step, onerror, onend, hx]
  · intro x hrec hsup hload
    simp [run, step, micButtonDisabled, startListening, onerror, onend, hrec, hsup, hload]
  · intro x hrec hload
    simp [run, step, micButtonDisabled, onerror, onend, hrec, hload]
  · intro hidle
    have hflags : s.isLoading = false ∧ s.isListening = false := by
      simpa [isIdle] using hidle
    refine ⟨exchange_isIdle s text o decodes htext hidle, ?_⟩
    intro hsup hrec
    obtain ⟨hload, hlisten⟩ := hflags
    simp [run, step, micButtonDisabled, startListening, stopListening, onerror, onend, isIdle,
      hload, hlisten, hsup, hrec]

theorem failure_clears_its_own_flag_witness :
    isBlank "fever" = false ∧ isBlank "cough" = false ∧
    isSuccess (Exchange.response 503 (ParsedBody.fields
      { result := none, speech_data := none, message := none, isValidbase64 := none,
        error := some "Service unavailable" })) = false ∧
    (analyzeSymptomsSettled
      (analyzeSymptoms (run (initialSession true) [Command.typeText "fever", Command.clickMic])
        "fever")
      (Exchange.response 503 (ParsedBody.fields
        { result := none, speech_data := none, message := none, isValidbase64 := none,
          error := some "Service unavailable" })) false).isLoading = false ∧
    isIdle (analyzeSymptomsSettled (analyzeSymptoms (initialSession true) "fever")
      (Exchange.response 503 (ParsedBody.fields
        { result := none, speech_data := none, message := none, isValidbase64 := none,
          error := some "Service unavailable" })) false) = true ∧
    (run (initialSession true)
      [Command.clickMic, Command.recognitionError, Command.clickMic]).isListening = true :=
  have h1 := failure_clears_its_own_flag
    (run (initialSession true) [Command.typeText "fever", Command.clickMic]) "fever" "cough"
    (Exchange.response 503 (ParsedBody.fields
      { result := none, speech_data := none, message := none, isValidbase64 := none,
        error := some "Service unavailable" })) false
    (by decide) (by decide) (by decide)
  have h2 := failure_clears_its_own_flag (initialSession true) "fever" "cough"
    (Exchange.response 503 (ParsedBody.fields
      { result := none, speech_data := none, message := none, isValidbase64 := none,
        error := some "Service unavailable" })) false
    (by decide) (by decide) (by decide)
  ⟨by decide, by decide, by decide, h1.1.1, (h2.2.2 (by decide)).1,
   ((h2.2.2 (by decide)).2 rfl rfl).2.2.2.1⟩

/-! C15: the text of the reply -/

/-- C15, as stated, fails: a success response whose `result` field is present
and is the empty string gets the fallback text as its assistant message, not
the field. -/
theorem empty_result_gets_fallback_text :
    (analyzeSymptomsSettled (analyzeSymptoms (initialSession true) "I have a fever")
        (Exchange.response 200 (ParsedBody.fields
          { result := some "", speech_data := none, message := none,
            isValidbase64 := none, error := none })) false).messages =
      [userSays "I have a fever", assistantSays "No response text provided."] ∧
    (analyzeSymptomsSettled (analyzeSymptoms (initialSession true) "I have a fever")
        (Exchange.response 200 (ParsedBody.fields
          { result := some "", speech_data := none, message := none,
            isValidbase64 := none, error := none })) false).messages ≠
      [userSays "I have a fever", assistantSays ""] := by
  constructor <;> decide

/-- C15, amended: for every successful analysis response, the content of the
appended assistant message is the response's `result` text when that field is
a non-empty string, and the fallback "No response text provided." when it is
absent, `null` or the empty string; a response whose optional fields
(`speech_data`, `message`, `isValidbase64`) are all missing yields that same
assistant message, starts no playback and clears the loading flag. -/
theorem success_reply_text (s : Session) (status : Nat) (d : ResponseData)
    (decodes : Bool) (hok : responseOk status = true) :
    (∀ r : String, d.result = some r → r ≠ "" →
      (analyzeSymptomsSettled s (Exchange.response status (ParsedBody.fields d))
        decodes).messages = s.messages ++ [{ role := Role.assistant, content := r }]) ∧
    (d.result = none ∨ d.result = some "" →
      (analyzeSymptomsSettled s (Exchange.response status (ParsedBody.fields d))
        decodes).messages =
          s.messages ++ [{ role := Role.assistant, content := "No response text provided." }]) ∧
    (d.speech_data = none → d.message = none → d.isValidbase64 = none →
      (∀ r : String, d.result = some r → r ≠ "" →
        (analyzeSymptomsSettled s (Exchange.response status (ParsedBody.fields d))
          decodes).messages = s.messages ++ [{ role := Role.assistant, content := r }]) ∧
      (analyzeSymptomsSettled s (Exchange.response status (ParsedBody.fields d))
        decodes).playbackCalls = s.playbackCalls ∧
      (analyzeSymptomsSettled s (Exchange.response status (ParsedBody.fields d))
        decodes).audio = s.audio ∧
      (analyzeSymptomsSettled s (Exchange.response status (ParsedBody.fields d))
        decodes).isLoading = false) := by
  have hm := settled_ok_messages s status d decodes hok
  have hres : ∀ r : String, d.result = some r → r ≠ "" →
      (analyzeSymptomsSettled s (Exchange.response status (ParsedBody.fields d))
        decodes).messages = s.messages ++ [{ role := Role.assistant, content := r }] := by
    intro r hr hne
    have hd := data_isEmpty_eq_false_of_ne r hne
    rw [hm, hr]
    simp [jsOr, hd, assistantSays]
  refine ⟨hres, ?_, ?_⟩
  · intro hr
    rw [hm]
    rcases hr with hr | hr <;> rw [hr] <;> rfl
  · intro hspeech _ _
    refine ⟨hres, ?_, ?_, settled_isLoading s _ decodes⟩
    · simp [analyzeSymptomsSettled, hok, finallyBlock, onOk, hspeech]
    · simp [analyzeSymptomsSettled, hok, finallyBlock, onOk, hspeech]

theorem success_reply_text_witness :
    responseOk 200 = true ∧
    (analyzeSymptomsSettled (analyzeSymptoms (initialSession true) "I have a fever and cough")
        (Exchange.response 200 (ParsedBody.fields
          { result := some "Rest and hydrate.", speech_data := none, message := none,
            isValidbase64 := none, error := none })) false).messages =
      (analyzeSymptoms (initialSession true) "I have a fever and cough").messages ++
        [{ role := Role.assistant, content := "Rest and hydrate." }] :=
  ⟨by decide,
   (success_reply_text (analyzeSymptoms (initialSession true) "I have a fever and cough") 200
      { result := some "Rest and hydrate.", speech_data := none, message := none,
        isValidbase64 := none, error := none } false (by decide)).1
      "Rest and hydrate." rfl (by decide)⟩

end SymptomChecker

